import Mathlib

/-
  Shallow embedding of the adaptive search controller of the jigsaw puzzle
  solver (src/matchDetector.js, src/imageProcessor.js, src/unnamed/part_000).

  Modelling conventions:
  * JavaScript numbers are modelled as exact rationals (confidences, scale
    factors) and integers (pixel coordinates and dimensions, which the source
    always produces through Math.floor / integer-valued expressions).
  * The external OpenCV collaborators (rotation transform, cv.resize failure
    behaviour, cv.matchTemplate + cv.minMaxLoc) are supplied by an `Env`
    record of oracle functions; a call that would raise a JavaScript
    exception is an `Except.error ()`.  The dimensions of a resized template
    are computed in the source itself (imageProcessor.resizeTemplate builds
    the target cv.Size from Math.floor(cols * scale)), so they are embedded
    concretely.
  * Images are represented by their dimensions (cols, rows); the controller
    logic under verification never inspects pixel content, only dimensions,
    scores and locations returned by the collaborators.
-/

namespace Jigsaw

/- Batteries marks the Rat arithmetic operations irreducible; restore
definitional transparency locally so that concrete runs of the embedded
detector can be checked by the decide tactic. -/
attribute [local semireducible] Rat.mul Rat.add Rat.sub Rat.inv Rat.ofScientific

/-! ## Configuration (src/unnamed/part_000, `CONFIG`) -/

namespace CONFIG

def DETECTION_THRESHOLD : ℚ := 0.40

def MATCH_CONFIDENCE_THRESHOLD : ℚ := 0.60

def HIGH_CONFIDENCE_THRESHOLD : ℚ := 0.75

def MAX_STABLE_COUNT : ℤ := 10

def TEMPLATE.MIN_SIZE : ℤ := 20

def MATCH.STABLE_POSITION_THRESHOLD : ℤ := 20

def MATCH.STABLE_SIZE_THRESHOLD : ℤ := 20

def MATCH.STABLE_ROTATION_THRESHOLD : ℤ := 15

def MATCH.MAX_SEARCH_ITERATIONS : ℤ := 10

def ROI.ENABLED : Bool := true

def ROI.MARGIN_FACTOR_HIGH : ℚ := 0.5

def ROI.MARGIN_FACTOR_LOW : ℚ := 0.7

def ALGORITHM.ROTATIONS.COARSE : List ℤ := [0, 90, 180, 270]

def ALGORITHM.ROTATIONS.MEDIUM : List ℤ := [0, 45, 90, 135, 180, 225, 270, 315]

def ALGORITHM.ROTATIONS.FINE : List ℤ :=
  [0, 15, 30, 45, 60, 75, 90, 105, 120, 135, 150, 165, 180,
   195, 210, 225, 240, 255, 270, 285, 300, 315, 330, 345]

def ALGORITHM.SCALES.COARSE : List ℚ := [0.3, 0.5, 0.7, 1.0]

def ALGORITHM.SCALES.MEDIUM : List ℚ := [0.4, 0.6, 0.8, 1.0]

def ALGORITHM.SCALES.FINE : List ℚ := [0.5, 0.7, 0.9, 1.1]

def EARLY_TERMINATION_THRESHOLD : ℚ := 0.85

end CONFIG

/-! ## Data model -/

/-- The detector's rotationMode field, holding one of the three string values
(coarse, medium, fine) used by matchDetector.js. -/
inductive RotationMode where
  | coarse
  | medium
  | fine
deriving Repr, DecidableEq

/-- A best-match record as built in MatchDetector.detectPiece. -/
structure MatchCandidate where
  confidence : ℚ
  scale : ℚ
  rotation : ℤ
  x : ℤ
  y : ℤ
  width : ℤ
  height : ℤ
deriving Repr, DecidableEq

/-- An axis-aligned rectangle such as searchROI or the cv.Rect built in
ImageProcessor.extractRoi. -/
structure Rect where
  x : ℤ
  y : ℤ
  width : ℤ
  height : ℤ
deriving Repr, DecidableEq

/-- The mutable fields of the MatchDetector instance
(matchDetector.js constructor). -/
structure DetectorState where
  rotationMode : RotationMode
  lastConfidence : ℚ
  lastMatchRegion : Option MatchCandidate
  stableMatchCount : ℤ
  roi : Option Rect
deriving Repr, DecidableEq

/-- Result of cv.minMaxLoc as consumed by detectPiece: the best score and its
top-left location within the searched region. -/
structure MinMax where
  maxVal : ℚ
  maxLocX : ℤ
  maxLocY : ℤ
deriving Repr, DecidableEq

/-- Loop bookkeeping of one detectPiece sweep: the running best match, the
earlyTermination flag and the iterationCount counter. -/
structure SweepState where
  best : Option MatchCandidate
  earlyTerm : Bool
  iter : ℤ
deriving Repr, DecidableEq

instance : DecidableEq (Except Unit SweepState) := fun a b =>
  match a, b with
  | Except.error _, Except.error _ => isTrue (by rfl)
  | Except.ok x, Except.ok y =>
    if h : x = y then isTrue (by rw [h]) else isFalse (by simp [h])
  | Except.error _, Except.ok _ => isFalse (by simp)
  | Except.ok _, Except.error _ => isFalse (by simp)

/-- The external collaborators of one detectPiece call.
  * isReady / cachedRef model imageProcessor.isReady and the dimensions
    (cols, rows) of imageProcessor.cachedBlurredRef (none = no reference
    cached).
  * template models the result of imageProcessor.processTemplateImage:
    the dimensions of the blurred template, or none when processing fails
    (that method catches its own errors and returns null).
  * rotDimsOf gives the dimensions of imageProcessor.rotateImage output,
    or an error when the underlying cv call throws.
  * resizeFails tells whether cv.resize throws inside resizeTemplate.
  * corr gives the cv.matchTemplate + cv.minMaxLoc result for given region
    dimensions and template dimensions, or an error when cv throws. -/
structure Env where
  isReady : Bool
  cachedRef : Option (ℤ × ℤ)
  template : Option (ℤ × ℤ)
  rotDimsOf : ℤ → ℤ × ℤ → Except Unit (ℤ × ℤ)
  resizeFails : ℚ → ℤ × ℤ → Bool
  corr : ℤ × ℤ → ℤ × ℤ → Except Unit MinMax

/-! ## ImageProcessor operations (src/imageProcessor.js) -/

/-- ImageProcessor.resizeTemplate: the output mat has the cv.Size built from
Math.floor(mat.cols * scale) and Math.floor(mat.rows * scale). -/
def resizeTemplate (d : ℤ × ℤ) (scale : ℚ) : ℤ × ℤ :=
  (Rat.floor ((d.1 : ℚ) * scale), Rat.floor ((d.2 : ℚ) * scale))

/-- The safe cv.Rect computed in ImageProcessor.extractRoi, clipping the
requested roi to the cached reference of dimensions W x H. -/
def safeRoi (W H : ℤ) (r : Rect) : Rect :=
  { x := max 0 (min r.x (W - 1))
    y := max 0 (min r.y (H - 1))
    width := min r.width (W - r.x)
    height := min r.height (H - r.y) }

/-- Dimensions (cols, rows) of the mat returned by ImageProcessor.extractRoi:
the width and height of the safe roi. -/
def extractRoiDims (W H : ℤ) (r : Rect) : ℤ × ℤ :=
  ((safeRoi W H r).width, (safeRoi W H r).height)

/-- ImageProcessor.matchTemplate: returns maxVal 0 at location (0,0) when the
template is not strictly smaller than the region in both axes, otherwise
invokes the correlation primitive. -/
def matchTemplate (env : Env) (roiDims tDims : ℤ × ℤ) : Except Unit MinMax :=
  if roiDims.1 ≤ tDims.1 ∨ roiDims.2 ≤ tDims.2 then Except.ok ⟨0, 0, 0⟩
  else env.corr roiDims tDims

/-! ## MatchDetector (src/matchDetector.js) -/

/-- The field values assigned by the MatchDetector constructor. -/
def initState : DetectorState :=
  { rotationMode := RotationMode.coarse
    lastConfidence := 0
    lastMatchRegion := none
    stableMatchCount := 0
    roi := none }

/-- MatchDetector.reset assigns the same five initial field values as the
constructor. -/
def reset (_s : DetectorState) : DetectorState := initState

def rotationsForMode : RotationMode → List ℤ
  | RotationMode.coarse => CONFIG.ALGORITHM.ROTATIONS.COARSE
  | RotationMode.medium => CONFIG.ALGORITHM.ROTATIONS.MEDIUM
  | RotationMode.fine => CONFIG.ALGORITHM.ROTATIONS.FINE

def scalesForMode : RotationMode → List ℚ
  | RotationMode.coarse => CONFIG.ALGORITHM.SCALES.COARSE
  | RotationMode.medium => CONFIG.ALGORITHM.SCALES.MEDIUM
  | RotationMode.fine => CONFIG.ALGORITHM.SCALES.FINE

/-- MatchDetector.getRotationAngles.  The switch default coincides with the
coarse case and the three-valued mode type makes it unreachable.  Math.round
of a stored rotation is the identity here because every stored rotation comes
from an integer angle list. -/
def getRotationAngles (s : DetectorState) : List ℤ :=
  match s.lastMatchRegion with
  | some lm =>
    if CONFIG.HIGH_CONFIDENCE_THRESHOLD < s.lastConfidence ∧
       CONFIG.MAX_STABLE_COUNT / 2 < s.stableMatchCount then
      [lm.rotation]
    else rotationsForMode s.rotationMode
  | none => rotationsForMode s.rotationMode

/-- MatchDetector.getOptimalScales (the JS division MAX_STABLE_COUNT / 2 is
exact: 10 / 2 = 5, agreeing with the integer division used here). -/
def getOptimalScales (s : DetectorState) : List ℚ :=
  match s.lastMatchRegion with
  | some lm =>
    if CONFIG.HIGH_CONFIDENCE_THRESHOLD < s.lastConfidence ∧
       CONFIG.MAX_STABLE_COUNT / 2 < s.stableMatchCount then
      [lm.scale * 0.95, lm.scale, lm.scale * 1.05]
    else scalesForMode s.rotationMode
  | none => scalesForMode s.rotationMode

/-- The searchROI computation at the top of MatchDetector.detectPiece for a
reference of dimensions W x H.  Returns the search region together with the
value written to this.roi (the region itself in the narrowed branch, null in
the full-image branch).  Math.floor is the identity on the integer-valued
expressions lastMatchRegion.x - margin and width + 2 * margin. -/
def computeSearchROI (W H : ℤ) (s : DetectorState) : Rect × Option Rect :=
  match s.lastMatchRegion with
  | some lm =>
    if CONFIG.ROI.ENABLED = true ∧
       CONFIG.MATCH_CONFIDENCE_THRESHOLD < s.lastConfidence then
      let marginFactor : ℚ :=
        if CONFIG.HIGH_CONFIDENCE_THRESHOLD < s.lastConfidence then
          CONFIG.ROI.MARGIN_FACTOR_HIGH
        else CONFIG.ROI.MARGIN_FACTOR_LOW
      let margin : ℤ := Rat.floor (((max lm.width lm.height : ℤ) : ℚ) * marginFactor)
      let roiX : ℤ := max 0 (lm.x - margin)
      let roiY : ℤ := max 0 (lm.y - margin)
      let roiW : ℤ := min (W - roiX) (lm.width + 2 * margin)
      let roiH : ℤ := min (H - roiY) (lm.height + 2 * margin)
      (⟨roiX, roiY, roiW, roiH⟩, some ⟨roiX, roiY, roiW, roiH⟩)
    else (⟨0, 0, W, H⟩, none)
  | none => (⟨0, 0, W, H⟩, none)

/-- x offset applied to a match location: this.roi ? this.roi.x : 0. -/
def roiOffX : Option Rect → ℤ
  | some r => r.x
  | none => 0

/-- y offset applied to a match location: this.roi ? this.roi.y : 0. -/
def roiOffY : Option Rect → ℤ
  | some r => r.y
  | none => 0

/-- Whether a new score replaces the running best:
!bestMatch || minMax.maxVal > bestMatch.confidence. -/
def betterThan : Option MatchCandidate → ℚ → Bool
  | none, _ => true
  | some b, v => decide (b.confidence < v)

/-- MatchDetector.updateRotationMode (thresholds are the literals 0.8 and
0.85 in the source). -/
def updateRotationMode (s : DetectorState) : DetectorState :=
  if 0.8 < s.lastConfidence ∧ s.rotationMode = RotationMode.coarse then
    { s with rotationMode := RotationMode.medium }
  else if 0.85 < s.lastConfidence ∧ s.rotationMode = RotationMode.medium then
    { s with rotationMode := RotationMode.fine }
  else s

/-- The else branch of MatchDetector.updateMatchStability: decay confidence,
decrement the stability counter, and fall back to coarse mode when the
counter is zero and the mode is not coarse. -/
def missUpdate (s : DetectorState) : DetectorState :=
  let s1 : DetectorState :=
    { s with lastConfidence := max 0 (s.lastConfidence - 0.1)
             stableMatchCount := max 0 (s.stableMatchCount - 1) }
  if s1.stableMatchCount = 0 ∧ s1.rotationMode ≠ RotationMode.coarse then
    { s1 with rotationMode := RotationMode.coarse }
  else s1

/-- MatchDetector.updateMatchStability. -/
def updateMatchStability (bestMatch : Option MatchCandidate)
    (s : DetectorState) : DetectorState :=
  match bestMatch with
  | some bm =>
    if CONFIG.DETECTION_THRESHOLD ≤ bm.confidence then
      let s1 : DetectorState :=
        match s.lastMatchRegion with
        | some lm =>
          if |lm.x - bm.x| < CONFIG.MATCH.STABLE_POSITION_THRESHOLD ∧
             |lm.y - bm.y| < CONFIG.MATCH.STABLE_POSITION_THRESHOLD ∧
             |lm.width - bm.width| < CONFIG.MATCH.STABLE_SIZE_THRESHOLD ∧
             |lm.rotation - bm.rotation| < CONFIG.MATCH.STABLE_ROTATION_THRESHOLD then
            { s with stableMatchCount :=
                       min CONFIG.MAX_STABLE_COUNT (s.stableMatchCount + 1) }
          else
            { s with stableMatchCount := max 0 (s.stableMatchCount - 1) }
        | none => s
      updateRotationMode
        { s1 with lastMatchRegion := some bm, lastConfidence := bm.confidence }
    else missUpdate s
  | none => missUpdate s

/-- One inner-loop iteration of the detectPiece sweep, entered after the
break check: increment iterationCount, resize the rotated template, skip
invalid sizes, correlate and possibly record a new best match. -/
def evalScale (env : Env) (roiDims : ℤ × ℤ) (roiOpt : Option Rect)
    (rot : ℤ) (rotDims : ℤ × ℤ) (scale : ℚ) (st : SweepState) :
    Except Unit SweepState :=
  let st1 : SweepState := { st with iter := st.iter + 1 }
  if env.resizeFails scale rotDims then Except.error ()
  else
    let scaled := resizeTemplate rotDims scale
    if roiDims.1 ≤ scaled.1 ∨ roiDims.2 ≤ scaled.2 ∨
       scaled.1 ≤ CONFIG.TEMPLATE.MIN_SIZE ∨ scaled.2 ≤ CONFIG.TEMPLATE.MIN_SIZE then
      Except.ok st1
    else
      match matchTemplate env roiDims scaled with
      | Except.error e => Except.error e
      | Except.ok mm =>
        if CONFIG.DETECTION_THRESHOLD ≤ mm.maxVal ∧ betterThan st1.best mm.maxVal = true then
          Except.ok
            { st1 with
              best := some
                { confidence := mm.maxVal
                  scale := scale
                  rotation := rot
                  x := mm.maxLocX + roiOffX roiOpt
                  y := mm.maxLocY + roiOffY roiOpt
                  width := scaled.1
                  height := scaled.2 }
              earlyTerm :=
                if CONFIG.EARLY_TERMINATION_THRESHOLD < mm.maxVal then true
                else st1.earlyTerm }
        else Except.ok st1

/-- The inner for-of loop over scales, with its break condition checked
before every iteration. -/
def sweepScales (env : Env) (roiDims : ℤ × ℤ) (roiOpt : Option Rect)
    (rot : ℤ) (rotDims : ℤ × ℤ) :
    List ℚ → SweepState → Except Unit SweepState
  | [], st => Except.ok st
  | scale :: rest, st =>
    if st.earlyTerm = true ∨ CONFIG.MATCH.MAX_SEARCH_ITERATIONS < st.iter then
      Except.ok st
    else
      match evalScale env roiDims roiOpt rot rotDims scale st with
      | Except.error e => Except.error e
      | Except.ok st1 => sweepScales env roiDims roiOpt rot rotDims rest st1

/-- The outer for-of loop over rotations, with its break condition checked
before every iteration; the rotated template is obtained once per rotation
and reused across the inner scale loop. -/
def sweepRotations (env : Env) (tDims roiDims : ℤ × ℤ) (roiOpt : Option Rect)
    (scales : List ℚ) :
    List ℤ → SweepState → Except Unit SweepState
  | [], st => Except.ok st
  | rot :: rest, st =>
    if st.earlyTerm = true ∨ CONFIG.MATCH.MAX_SEARCH_ITERATIONS < st.iter then
      Except.ok st
    else
      match env.rotDimsOf rot tDims with
      | Except.error e => Except.error e
      | Except.ok rotDims =>
        match sweepScales env roiDims roiOpt rot rotDims scales st with
        | Except.error e => Except.error e
        | Except.ok st1 => sweepRotations env tDims roiDims roiOpt scales rest st1

/-- The whole rotation x scale sweep of one detectPiece call on state s with
a reference of dimensions W x H and template dimensions tDims, starting from
no best match, earlyTermination false and iterationCount 0. -/
def sweepOf (env : Env) (s : DetectorState) (W H : ℤ) (tDims : ℤ × ℤ) :
    Except Unit SweepState :=
  sweepRotations env tDims
    (extractRoiDims W H (computeSearchROI W H s).1)
    (computeSearchROI W H s).2
    (getOptimalScales s)
    (getRotationAngles s)
    ⟨none, false, 0⟩

/-- MatchDetector.detectPiece.  Returns the value returned to the caller
together with the detector state after the call.  The whole sweep sits in a
single try/catch: any collaborator error makes the call return null with no
stability update (this.roi has however already been rewritten).  The
roiMat-null branch after extractRoi is unreachable here because it requires
cachedBlurredRef to be null, which the precondition check already excluded. -/
def detectPiece (env : Env) (s : DetectorState) :
    Option MatchCandidate × DetectorState :=
  if env.isReady = false then (none, s)
  else
    match env.cachedRef with
    | none => (none, s)
    | some refDims =>
      match env.template with
      | none => (none, s)
      | some tDims =>
        let s1 : DetectorState :=
          { s with roi := (computeSearchROI refDims.1 refDims.2 s).2 }
        match sweepOf env s refDims.1 refDims.2 tDims with
        | Except.error _ => (none, s1)
        | Except.ok st => (st.best, updateMatchStability st.best s1)

/-! ## Helper lemmas about one sweep iteration -/

/-- Characterization of a successful inner-loop iteration: either nothing is
recorded (the resized template was skipped or did not beat the running best),
or a new best match of the displayed shape is recorded after a correlation
call on a template that passed the size guard. -/
theorem evalScale_ok_cases {env : Env} {rd : ℤ × ℤ} {ro : Option Rect}
    {rot : ℤ} {rdim : ℤ × ℤ} {sc : ℚ} {st st' : SweepState}
    (h : evalScale env rd ro rot rdim sc st = Except.ok st') :
    (st'.best = st.best ∧ st'.earlyTerm = st.earlyTerm ∧ st'.iter = st.iter + 1) ∨
    (∃ mm : MinMax,
      env.corr rd (resizeTemplate rdim sc) = Except.ok mm ∧
      CONFIG.DETECTION_THRESHOLD ≤ mm.maxVal ∧
      (resizeTemplate rdim sc).1 < rd.1 ∧ (resizeTemplate rdim sc).2 < rd.2 ∧
      CONFIG.TEMPLATE.MIN_SIZE < (resizeTemplate rdim sc).1 ∧
      CONFIG.TEMPLATE.MIN_SIZE < (resizeTemplate rdim sc).2 ∧
      st'.iter = st.iter + 1 ∧
      st'.earlyTerm = (if CONFIG.EARLY_TERMINATION_THRESHOLD < mm.maxVal then true else st.earlyTerm) ∧
      st'.best = some
        { confidence := mm.maxVal, scale := sc, rotation := rot,
          x := mm.maxLocX + roiOffX ro, y := mm.maxLocY + roiOffY ro,
          width := (resizeTemplate rdim sc).1, height := (resizeTemplate rdim sc).2 }) := by
  simp only [evalScale] at h
  split at h
  · exact absurd h (by simp)
  · split at h
    · cases h
      exact Or.inl ⟨rfl, rfl, rfl⟩
    · rename_i hresize hskip
      push_neg at hskip
      obtain ⟨h1, h2, h3, h4⟩ := hskip
      rw [matchTemplate, if_neg (by push_neg; exact ⟨h1, h2⟩)] at h
      split at h
      · exact absurd h (by simp)
      · rename_i mm hcorr
        split at h
        · rename_i hrec
          cases h
          exact Or.inr ⟨mm, hcorr, hrec.1, h1, h2, h3, h4, rfl, rfl, rfl⟩
        · cases h
          exact Or.inl ⟨rfl, rfl, rfl⟩

/-- Preservation of a property of the recorded best through the inner scale
loop. -/
theorem sweepScales_pres (Q : MatchCandidate → Prop) {env : Env}
    {rd : ℤ × ℤ} {ro : Option Rect} {rot : ℤ} {rdim : ℤ × ℤ}
    (hstep : ∀ sc st st', evalScale env rd ro rot rdim sc st = Except.ok st' →
      (∀ c, st.best = some c → Q c) → (∀ c, st'.best = some c → Q c)) :
    ∀ (scs : List ℚ) (st st' : SweepState),
      sweepScales env rd ro rot rdim scs st = Except.ok st' →
      (∀ c, st.best = some c → Q c) → (∀ c, st'.best = some c → Q c) := by
  intro scs
  induction scs with
  | nil => intro st st' h hQ; cases h; exact hQ
  | cons sc rest ih =>
    intro st st' h hQ
    rw [sweepScales] at h
    split at h
    · cases h; exact hQ
    · split at h
      · exact absurd h (by simp)
      · rename_i st1 hev
        exact ih st1 st' h (hstep sc st st1 hev hQ)

/-- Preservation of a property of the recorded best through the outer
rotation loop. -/
theorem sweepRotations_pres (Q : MatchCandidate → Prop) {env : Env}
    {tD rd : ℤ × ℤ} {ro : Option Rect} {scs : List ℚ}
    (hstep : ∀ rot rdim sc st st', evalScale env rd ro rot rdim sc st = Except.ok st' →
      (∀ c, st.best = some c → Q c) → (∀ c, st'.best = some c → Q c)) :
    ∀ (rots : List ℤ) (st st' : SweepState),
      sweepRotations env tD rd ro scs rots st = Except.ok st' →
      (∀ c, st.best = some c → Q c) → (∀ c, st'.best = some c → Q c) := by
  intro rots
  induction rots with
  | nil => intro st st' h hQ; cases h; exact hQ
  | cons rot rest ih =>
    intro st st' h hQ
    rw [sweepRotations] at h
    split at h
    · cases h; exact hQ
    · split at h
      · exact absurd h (by simp)
      · rename_i rdim hrot
        split at h
        · exact absurd h (by simp)
        · rename_i st1 hsc
          exact ih st1 st' h
            (sweepScales_pres Q (fun sc => hstep rot rdim sc) scs st st1 hsc hQ)

/-- Every candidate recorded by a sweep has confidence at least the detection
threshold. -/
theorem sweep_best_conf {env : Env} {tD rd : ℤ × ℤ} {ro : Option Rect}
    {scs : List ℚ} {rots : List ℤ} {st st' : SweepState}
    (h : sweepRotations env tD rd ro scs rots st = Except.ok st')
    (hst : ∀ c, st.best = some c → CONFIG.DETECTION_THRESHOLD ≤ c.confidence) :
    ∀ c, st'.best = some c → CONFIG.DETECTION_THRESHOLD ≤ c.confidence := by
  refine sweepRotations_pres _ ?_ rots st st' h hst
  intro rot rdim sc u u' hev hQ c hc
  rcases evalScale_ok_cases hev with ⟨hb, _, _⟩ | ⟨mm, _, hth, _, _, _, _, _, _, hb⟩
  · exact hQ c (hb ▸ hc)
  · rw [hb] at hc
    cases hc
    exact hth

/-- A successful inner-loop iteration increments iterationCount by exactly
one. -/
theorem evalScale_iter {env : Env} {rd : ℤ × ℤ} {ro : Option Rect}
    {rot : ℤ} {rdim : ℤ × ℤ} {sc : ℚ} {st st' : SweepState}
    (h : evalScale env rd ro rot rdim sc st = Except.ok st') :
    st'.iter = st.iter + 1 := by
  rcases evalScale_ok_cases h with ⟨_, _, hi⟩ | ⟨mm, _, _, _, _, _, _, hi, _, _⟩ <;> exact hi

/-- The inner loop keeps iterationCount at most one above the configured
maximum. -/
theorem sweepScales_iter {env : Env} {rd : ℤ × ℤ} {ro : Option Rect}
    {rot : ℤ} {rdim : ℤ × ℤ} :
    ∀ (scs : List ℚ) (st st' : SweepState),
      sweepScales env rd ro rot rdim scs st = Except.ok st' →
      st.iter ≤ CONFIG.MATCH.MAX_SEARCH_ITERATIONS + 1 →
      st'.iter ≤ CONFIG.MATCH.MAX_SEARCH_ITERATIONS + 1 := by
  intro scs
  induction scs with
  | nil => intro st st' h hle; cases h; exact hle
  | cons sc rest ih =>
    intro st st' h hle
    rw [sweepScales] at h
    split at h
    · cases h; exact hle
    · rename_i hguard
      push_neg at hguard
      split at h
      · exact absurd h (by simp)
      · rename_i st1 hev
        refine ih st1 st' h ?_
        rw [evalScale_iter hev]
        omega

/-- The whole sweep keeps iterationCount at most one above the configured
maximum. -/
theorem sweepRotations_iter {env : Env} {tD rd : ℤ × ℤ} {ro : Option Rect}
    {scs : List ℚ} :
    ∀ (rots : List ℤ) (st st' : SweepState),
      sweepRotations env tD rd ro scs rots st = Except.ok st' →
      st.iter ≤ CONFIG.MATCH.MAX_SEARCH_ITERATIONS + 1 →
      st'.iter ≤ CONFIG.MATCH.MAX_SEARCH_ITERATIONS + 1 := by
  intro rots
  induction rots with
  | nil => intro st st' h hle; cases h; exact hle
  | cons rot rest ih =>
    intro st st' h hle
    rw [sweepRotations] at h
    split at h
    · cases h; exact hle
    · split at h
      · exact absurd h (by simp)
      · rename_i rdim hrot
        split at h
        · exact absurd h (by simp)
        · rename_i st1 hsc
          exact ih st1 st' h (sweepScales_iter scs st st1 hsc hle)

/-! ## Case characterization of one detectPiece call -/

/-- Every detectPiece call falls into exactly one of three cases: a failed
precondition check (returning null with the state untouched), a sweep aborted
by a collaborator error (returning null with only this.roi rewritten), or a
completed sweep followed by the stability update. -/
theorem detect_cases (env : Env) (s : DetectorState) :
    (detectPiece env s = (none, s) ∧
      (env.isReady = false ∨ env.cachedRef = none ∨ env.template = none)) ∨
    (∃ W H tD, env.isReady = true ∧ env.cachedRef = some (W, H) ∧
      env.template = some tD ∧
      ((∃ e, sweepOf env s W H tD = Except.error e ∧
          detectPiece env s = (none, { s with roi := (computeSearchROI W H s).2 })) ∨
       (∃ st, sweepOf env s W H tD = Except.ok st ∧
          detectPiece env s =
            (st.best, updateMatchStability st.best
              { s with roi := (computeSearchROI W H s).2 })))) := by
  cases hr : env.isReady with
  | false => exact Or.inl ⟨by rw [detectPiece, if_pos hr], Or.inl rfl⟩
  | true =>
    cases hc : env.cachedRef with
    | none =>
      refine Or.inl ⟨?_, Or.inr (Or.inl rfl)⟩
      rw [detectPiece, if_neg (by rw [hr]; simp), hc]
    | some refDims =>
      cases ht : env.template with
      | none =>
        refine Or.inl ⟨?_, Or.inr (Or.inr rfl)⟩
        rw [detectPiece, if_neg (by rw [hr]; simp), hc, ht]
      | some tD =>
        refine Or.inr ⟨refDims.1, refDims.2, tD, rfl, rfl, rfl, ?_⟩
        cases hsw : sweepOf env s refDims.1 refDims.2 tD with
        | error e =>
          refine Or.inl ⟨e, rfl, ?_⟩
          simp only [detectPiece, hr, hc, ht, hsw, Bool.true_eq_false, if_false]
        | ok st =>
          refine Or.inr ⟨st, rfl, ?_⟩
          simp only [detectPiece, hr, hc, ht, hsw, Bool.true_eq_false, if_false]

/-! ## Field lemmas for the stability update -/

/-- updateRotationMode only ever touches the rotationMode field. -/
theorem updateRM_fields (s : DetectorState) :
    (updateRotationMode s).lastConfidence = s.lastConfidence ∧
    (updateRotationMode s).lastMatchRegion = s.lastMatchRegion ∧
    (updateRotationMode s).stableMatchCount = s.stableMatchCount ∧
    (updateRotationMode s).roi = s.roi := by
  unfold updateRotationMode
  split
  · exact ⟨rfl, rfl, rfl, rfl⟩
  · split
    · exact ⟨rfl, rfl, rfl, rfl⟩
    · exact ⟨rfl, rfl, rfl, rfl⟩

/-- The miss branch only rewrites lastConfidence, stableMatchCount and
possibly rotationMode; the decayed values are as in the source. -/
theorem missUpdate_fields (s : DetectorState) :
    (missUpdate s).lastConfidence = max 0 (s.lastConfidence - 0.1) ∧
    (missUpdate s).stableMatchCount = max 0 (s.stableMatchCount - 1) ∧
    (missUpdate s).lastMatchRegion = s.lastMatchRegion ∧
    (missUpdate s).roi = s.roi := by
  simp only [missUpdate]
  split
  · exact ⟨rfl, rfl, rfl, rfl⟩
  · exact ⟨rfl, rfl, rfl, rfl⟩

/-- After a miss update the mode is coarse exactly when it already was coarse
or the decremented stability counter has reached zero. -/
theorem missUpdate_mode (s : DetectorState) :
    (missUpdate s).rotationMode = RotationMode.coarse ↔
      (s.rotationMode = RotationMode.coarse ∨ max 0 (s.stableMatchCount - 1) = 0) := by
  simp only [missUpdate]
  split
  · rename_i hcond
    exact ⟨fun _ => Or.inr hcond.1, fun _ => rfl⟩
  · rename_i hcond
    push_neg at hcond
    constructor
    · exact fun h => Or.inl h
    · intro h
      rcases h with h | h
      · exact h
      · exact hcond h

/-- A miss update never escalates the mode: the result mode is the old mode
or coarse. -/
theorem missUpdate_mode_cases (s : DetectorState) :
    (missUpdate s).rotationMode = s.rotationMode ∨
    (missUpdate s).rotationMode = RotationMode.coarse := by
  simp only [missUpdate]
  split
  · exact Or.inr rfl
  · exact Or.inl rfl

/-- Fields of the hit branch of updateMatchStability. -/
theorem updateMS_some_fields {bm : MatchCandidate} {s : DetectorState}
    (hth : CONFIG.DETECTION_THRESHOLD ≤ bm.confidence) :
    (updateMatchStability (some bm) s).lastMatchRegion = some bm ∧
    (updateMatchStability (some bm) s).lastConfidence = bm.confidence := by
  simp only [updateMatchStability]
  rw [if_pos hth]
  exact ⟨((updateRM_fields _).2.1).trans rfl, ((updateRM_fields _).1).trans rfl⟩

/-- updateMatchStability on a missing candidate is exactly the miss update. -/
theorem updateMS_none (s : DetectorState) :
    updateMatchStability none s = missUpdate s := rfl

/-! ## Reachable detector states -/

/-- Detector states reachable from the constructor state by any sequence of
detectPiece calls (under arbitrary collaborator behaviour) and reset calls. -/
inductive DetectorReachable : DetectorState → Prop
  | init : DetectorReachable initState
  | step (env : Env) (s : DetectorState) :
      DetectorReachable s → DetectorReachable (detectPiece env s).2
  | didReset (s : DetectorState) :
      DetectorReachable s → DetectorReachable (reset s)

/-- The fresh-state invariant is preserved by one detectPiece call: if an
absent lastMatch forces the other fields to their initial values before the
call, the same holds after it. -/
theorem detect_freshInv_step (env : Env) (s : DetectorState)
    (hP : s.lastMatchRegion = none →
      s.rotationMode = RotationMode.coarse ∧ s.stableMatchCount = 0 ∧
      s.lastConfidence = 0) :
    (detectPiece env s).2.lastMatchRegion = none →
      (detectPiece env s).2.rotationMode = RotationMode.coarse ∧
      (detectPiece env s).2.stableMatchCount = 0 ∧
      (detectPiece env s).2.lastConfidence = 0 := by
  rcases detect_cases env s with ⟨heq, _⟩ | ⟨W, H, tD, _, _, _, ⟨e, _, heq⟩ | ⟨st, _, heq⟩⟩
  · rw [heq]; exact hP
  · rw [heq]; exact hP
  · rw [heq]
    cases hb : st.best with
    | some bm =>
      by_cases hth : CONFIG.DETECTION_THRESHOLD ≤ bm.confidence
      · intro hnone
        rw [(updateMS_some_fields hth).1] at hnone
        exact absurd hnone (by simp)
      · simp only [updateMatchStability, if_neg hth]
        intro hnone
        rw [(missUpdate_fields _).2.2.1] at hnone
        obtain ⟨hm, hst, hcf⟩ := hP hnone
        refine ⟨?_, ?_, ?_⟩
        · rw [missUpdate_mode]
          exact Or.inl hm
        · rw [(missUpdate_fields _).2.1]
          simp only [hst]
          decide
        · rw [(missUpdate_fields _).1]
          simp only [hcf]
          decide
    | none =>
      rw [updateMS_none]
      intro hnone
      rw [(missUpdate_fields _).2.2.1] at hnone
      obtain ⟨hm, hst, hcf⟩ := hP hnone
      refine ⟨?_, ?_, ?_⟩
      · rw [missUpdate_mode]
        exact Or.inl hm
      · rw [(missUpdate_fields _).2.1]
        simp only [hst]
        decide
      · rw [(missUpdate_fields _).1]
        simp only [hcf]
        decide

/-! ## Bounds invariants (reference-image coordinates) -/

/-- A candidate lies inside the reference image: 0 <= x, 0 <= y,
x + width <= referenceWidth, y + height <= referenceHeight. -/
def candInBounds (W H : ℤ) (c : MatchCandidate) : Prop :=
  0 ≤ c.x ∧ 0 ≤ c.y ∧ c.x + c.width ≤ W ∧ c.y + c.height ≤ H

/-- A candidate in bounds whose dimensions moreover exceed the minimum
template size (as every recorded candidate does, thanks to the size guard in
the sweep). -/
def goodCand (W H : ℤ) (c : MatchCandidate) : Prop :=
  candInBounds W H c ∧
  CONFIG.TEMPLATE.MIN_SIZE < c.width ∧ CONFIG.TEMPLATE.MIN_SIZE < c.height

/-- A search region lies inside the reference image and is non-degenerate:
nonnegative origin and size, and it does not overrun either axis. -/
def rectInBounds (W H : ℤ) (r : Rect) : Prop :=
  0 ≤ r.x ∧ 0 ≤ r.y ∧ 0 ≤ r.width ∧ 0 ≤ r.height ∧
  r.x + r.width ≤ W ∧ r.y + r.height ≤ H

/-- State invariant: any remembered last match is a good candidate. -/
def InvDS (W H : ℤ) (s : DetectorState) : Prop :=
  ∀ c, s.lastMatchRegion = some c → goodCand W H c

/-- Contract of the correlation primitive (cv.matchTemplate followed by
cv.minMaxLoc): when called with a template strictly smaller than the region,
the returned location lies inside the (region - template + 1) result matrix. -/
def CorrValid (env : Env) : Prop :=
  ∀ rd td mm, td.1 < rd.1 → td.2 < rd.2 → env.corr rd td = Except.ok mm →
    0 ≤ mm.maxLocX ∧ mm.maxLocX ≤ rd.1 - td.1 ∧
    0 ≤ mm.maxLocY ∧ mm.maxLocY ≤ rd.2 - td.2

/-- A well-behaved environment for a session on a W x H reference: the cached
reference, when present, has those dimensions, and the correlation primitive
honours its location contract. -/
def EnvOk (W H : ℤ) (env : Env) : Prop :=
  (env.cachedRef = none ∨ env.cachedRef = some (W, H)) ∧ CorrValid env

/-- Detector states reachable from the fresh state through detectPiece calls
in well-behaved environments of one session. -/
inductive ReachableIn (W H : ℤ) : DetectorState → Prop
  | init : ReachableIn W H initState
  | step (env : Env) (s : DetectorState) : EnvOk W H env →
      ReachableIn W H s → ReachableIn W H (detectPiece env s).2

/-- The match-location offset of the chosen search region is nonnegative and,
added to the extracted region dimensions, stays within the reference. -/
theorem roiOff_premise (W H : ℤ) (s : DetectorState) :
    0 ≤ roiOffX (computeSearchROI W H s).2 ∧
    0 ≤ roiOffY (computeSearchROI W H s).2 ∧
    roiOffX (computeSearchROI W H s).2 +
      (extractRoiDims W H (computeSearchROI W H s).1).1 ≤ W ∧
    roiOffY (computeSearchROI W H s).2 +
      (extractRoiDims W H (computeSearchROI W H s).1).2 ≤ H := by
  cases hlm : s.lastMatchRegion with
  | none =>
    simp only [computeSearchROI, hlm, roiOffX, roiOffY, extractRoiDims, safeRoi]
    have h1 := min_le_right W (W - 0)
    have h2 := min_le_right H (H - 0)
    refine ⟨le_refl 0, le_refl 0, by omega, by omega⟩
  | some lm =>
    simp only [computeSearchROI, hlm]
    split
    · simp only [roiOffX, roiOffY, extractRoiDims, safeRoi]
      have h1 := min_le_right
        (min (W - max 0 (lm.x - Rat.floor (((max lm.width lm.height : ℤ) : ℚ) *
          (if CONFIG.HIGH_CONFIDENCE_THRESHOLD < s.lastConfidence then
            CONFIG.ROI.MARGIN_FACTOR_HIGH else CONFIG.ROI.MARGIN_FACTOR_LOW))))
          (lm.width + 2 * Rat.floor (((max lm.width lm.height : ℤ) : ℚ) *
          (if CONFIG.HIGH_CONFIDENCE_THRESHOLD < s.lastConfidence then
            CONFIG.ROI.MARGIN_FACTOR_HIGH else CONFIG.ROI.MARGIN_FACTOR_LOW))))
        (W - max 0 (lm.x - Rat.floor (((max lm.width lm.height : ℤ) : ℚ) *
          (if CONFIG.HIGH_CONFIDENCE_THRESHOLD < s.lastConfidence then
            CONFIG.ROI.MARGIN_FACTOR_HIGH else CONFIG.ROI.MARGIN_FACTOR_LOW))))
      have h2 := le_max_left 0 (lm.x - Rat.floor (((max lm.width lm.height : ℤ) : ℚ) *
          (if CONFIG.HIGH_CONFIDENCE_THRESHOLD < s.lastConfidence then
            CONFIG.ROI.MARGIN_FACTOR_HIGH else CONFIG.ROI.MARGIN_FACTOR_LOW)))
      have h3 := min_le_right
        (min (H - max 0 (lm.y - Rat.floor (((max lm.width lm.height : ℤ) : ℚ) *
          (if CONFIG.HIGH_CONFIDENCE_THRESHOLD < s.lastConfidence then
            CONFIG.ROI.MARGIN_FACTOR_HIGH else CONFIG.ROI.MARGIN_FACTOR_LOW))))
          (lm.height + 2 * Rat.floor (((max lm.width lm.height : ℤ) : ℚ) *
          (if CONFIG.HIGH_CONFIDENCE_THRESHOLD < s.lastConfidence then
            CONFIG.ROI.MARGIN_FACTOR_HIGH else CONFIG.ROI.MARGIN_FACTOR_LOW))))
        (H - max 0 (lm.y - Rat.floor (((max lm.width lm.height : ℤ) : ℚ) *
          (if CONFIG.HIGH_CONFIDENCE_THRESHOLD < s.lastConfidence then
            CONFIG.ROI.MARGIN_FACTOR_HIGH else CONFIG.ROI.MARGIN_FACTOR_LOW))))
      have h4 := le_max_left 0 (lm.y - Rat.floor (((max lm.width lm.height : ℤ) : ℚ) *
          (if CONFIG.HIGH_CONFIDENCE_THRESHOLD < s.lastConfidence then
            CONFIG.ROI.MARGIN_FACTOR_HIGH else CONFIG.ROI.MARGIN_FACTOR_LOW)))
      exact ⟨h2, h4, by omega, by omega⟩
    · simp only [roiOffX, roiOffY, extractRoiDims, safeRoi]
      have h1 := min_le_right W (W - 0)
      have h2 := min_le_right H (H - 0)
      refine ⟨le_refl 0, le_refl 0, by omega, by omega⟩

/-- The computed margin is nonnegative for a nonnegative margin factor and a
last match of nonnegative dimensions. -/
theorem margin_nonneg (a : ℤ) (q : ℚ) (ha : 0 ≤ a) (hq : 0 ≤ q) :
    0 ≤ Rat.floor ((a : ℚ) * q) := by
  refine Rat.le_floor.mpr ?_
  push_cast
  exact mul_nonneg (by exact_mod_cast ha) hq

/-- The narrowed search region around a good last match, with any
nonnegative margin, is clipped inside the reference. -/
theorem tight_rect_bounds (W H : ℤ) (lm : MatchCandidate) (m : ℤ) (hm : 0 ≤ m)
    (hgood : goodCand W H lm) :
    rectInBounds W H
      ⟨max 0 (lm.x - m), max 0 (lm.y - m),
       min (W - max 0 (lm.x - m)) (lm.width + 2 * m),
       min (H - max 0 (lm.y - m)) (lm.height + 2 * m)⟩ := by
  obtain ⟨⟨hx, hy, hxw, hyh⟩, hw, hh⟩ := hgood
  simp only [rectInBounds]
  have hmin : CONFIG.TEMPLATE.MIN_SIZE = (20 : ℤ) := rfl
  rw [hmin] at hw hh
  have c1 : (0:ℤ) ≤ max 0 (lm.x - m) := le_max_left _ _
  have c2 : max 0 (lm.x - m) ≤ lm.x := max_le (by omega) (by omega)
  have c3 : (0:ℤ) ≤ max 0 (lm.y - m) := le_max_left _ _
  have c4 : max 0 (lm.y - m) ≤ lm.y := max_le (by omega) (by omega)
  have d1 : min (W - max 0 (lm.x - m)) (lm.width + 2 * m) ≤ W - max 0 (lm.x - m) :=
    min_le_left _ _
  have d2 : min (H - max 0 (lm.y - m)) (lm.height + 2 * m) ≤ H - max 0 (lm.y - m) :=
    min_le_left _ _
  have e1 : (0:ℤ) ≤ min (W - max 0 (lm.x - m)) (lm.width + 2 * m) :=
    le_min (by omega) (by omega)
  have e2 : (0:ℤ) ≤ min (H - max 0 (lm.y - m)) (lm.height + 2 * m) :=
    le_min (by omega) (by omega)
  exact ⟨c1, c3, e1, e2, by omega, by omega⟩

/-- Every computed search region is clipped to the reference bounds with
nonnegative size, provided the remembered last match is in bounds. -/
theorem searchROI_inBounds (W H : ℤ) (s : DetectorState) (hW : 0 ≤ W)
    (hH : 0 ≤ H) (hInv : InvDS W H s) :
    rectInBounds W H (computeSearchROI W H s).1 := by
  cases hlm : s.lastMatchRegion with
  | none =>
    simp only [computeSearchROI, hlm, rectInBounds]
    exact ⟨le_refl 0, le_refl 0, hW, hH, by omega, by omega⟩
  | some lm =>
    simp only [computeSearchROI, hlm]
    split
    · refine tight_rect_bounds W H lm _ ?_ (hInv lm hlm)
      refine margin_nonneg _ _ ?_ ?_
      · have := (hInv lm hlm).2.1
        have h20 : CONFIG.TEMPLATE.MIN_SIZE = (20 : ℤ) := rfl
        rw [h20] at this
        exact le_trans (by omega) (le_max_left lm.width lm.height)
      · split
        · norm_num [CONFIG.ROI.MARGIN_FACTOR_HIGH]
        · norm_num [CONFIG.ROI.MARGIN_FACTOR_LOW]
    · simp only [rectInBounds]
      exact ⟨le_refl 0, le_refl 0, hW, hH, by omega, by omega⟩

/-- Every candidate a sweep records is a good candidate, given the
correlation contract and the region-offset premise. -/
theorem sweep_best_good {env : Env} {W H : ℤ} {tD rd : ℤ × ℤ}
    {ro : Option Rect} {scs : List ℚ} {rots : List ℤ} {st st' : SweepState}
    (hcv : CorrValid env)
    (ho1 : 0 ≤ roiOffX ro) (ho2 : 0 ≤ roiOffY ro)
    (ho3 : roiOffX ro + rd.1 ≤ W) (ho4 : roiOffY ro + rd.2 ≤ H)
    (h : sweepRotations env tD rd ro scs rots st = Except.ok st')
    (hst : ∀ c, st.best = some c → goodCand W H c) :
    ∀ c, st'.best = some c → goodCand W H c := by
  refine sweepRotations_pres _ ?_ rots st st' h hst
  intro rot rdim sc u u' hev hQ c hc
  rcases evalScale_ok_cases hev with ⟨hb, _, _⟩ |
    ⟨mm, hcorr, hth, hlt1, hlt2, hgt1, hgt2, _, _, hb⟩
  · exact hQ c (hb ▸ hc)
  · rw [hb] at hc
    cases hc
    obtain ⟨hx0, hx1, hy0, hy1⟩ := hcv rd (resizeTemplate rdim sc) mm hlt1 hlt2 hcorr
    unfold goodCand candInBounds
    dsimp only
    exact ⟨⟨by omega, by omega, by omega, by omega⟩, hgt1, hgt2⟩

/-- One detectPiece call in a well-behaved environment preserves the bounds
invariant and only returns in-bounds candidates. -/
theorem detect_good {W H : ℤ} (env : Env) (s : DetectorState)
    (henv : EnvOk W H env) (hInv : InvDS W H s) :
    InvDS W H (detectPiece env s).2 ∧
    (∀ m, (detectPiece env s).1 = some m → goodCand W H m) := by
  rcases detect_cases env s with ⟨heq, _⟩ |
    ⟨W', H', tD, hr, hc, ht, ⟨e, hsw, heq⟩ | ⟨st, hsw, heq⟩⟩
  · rw [heq]
    exact ⟨hInv, by simp⟩
  · rw [heq]
    exact ⟨fun c hcc => hInv c hcc, by simp⟩
  · have hWH : W' = W ∧ H' = H := by
      rcases henv.1 with hnone | hsome
      · rw [hnone] at hc
        exact absurd hc (by simp)
      · rw [hsome] at hc
        injection hc with hpair
        injection hpair.symm with e1 e2
        exact ⟨e1, e2⟩
    obtain ⟨eW, eH⟩ := hWH
    rw [eW, eH] at hsw heq
    unfold sweepOf at hsw
    obtain ⟨ho1, ho2, ho3, ho4⟩ := roiOff_premise W H s
    have hgood : ∀ c, st.best = some c → goodCand W H c :=
      sweep_best_good henv.2 ho1 ho2 ho3 ho4 hsw
        (fun c hcc => absurd hcc (by simp))
    rw [heq]
    refine ⟨?_, fun m hm => hgood m hm⟩
    cases hb : st.best with
    | none =>
      dsimp only
      rw [updateMS_none]
      intro c hcc
      rw [(missUpdate_fields _).2.2.1] at hcc
      exact hInv c hcc
    | some bm =>
      dsimp only
      by_cases hth : CONFIG.DETECTION_THRESHOLD ≤ bm.confidence
      · intro c hcc
        rw [(updateMS_some_fields hth).1] at hcc
        cases hcc
        exact hgood bm hb
      · simp only [updateMatchStability, if_neg hth]
        intro c hcc
        rw [(missUpdate_fields _).2.2.1] at hcc
        exact hInv c hcc

/-- Reachable states of a session satisfy the bounds invariant. -/
theorem reachable_inv {W H : ℤ} {s : DetectorState}
    (hreach : ReachableIn W H s) : InvDS W H s := by
  induction hreach with
  | init => exact fun c hcc => absurd hcc (by simp [initState])
  | step env s henv hrec ih => exact (detect_good env s henv ih).1

/-! ## Concrete environments and states used by witnesses and
counterexamples -/

/-- A benign environment: a 100 x 100 reference, a 30 x 30 probe template,
dimension-preserving rotation, and a correlation primitive that always
reports score 0.5 at location (0, 0). -/
def envW : Env :=
  { isReady := true
    cachedRef := some (100, 100)
    template := some (30, 30)
    rotDimsOf := fun _ d => Except.ok d
    resizeFails := fun _ _ => false
    corr := fun _ _ => Except.ok ⟨0.5, 0, 0⟩ }

/-- The candidate detectPiece returns for envW from the fresh state:
rotation 0, scale 0.7 (the first coarse candidate past the minimum template
size), score 0.5. -/
def candW : MatchCandidate := ⟨0.5, 0.7, 0, 0, 0, 21, 21⟩

/-- A 1000 x 1000 reference with a 100 x 100 template whose every scaled
variant passes the size guard, and a correlation primitive always scoring
0.1 (below the detection threshold): the sweep runs into the iteration cap
with no match. -/
def envIter : Env :=
  { isReady := true
    cachedRef := some (1000, 1000)
    template := some (100, 100)
    rotDimsOf := fun _ d => Except.ok d
    resizeFails := fun _ _ => false
    corr := fun _ _ => Except.ok ⟨0.1, 0, 0⟩ }

/-- An environment whose correlation primitive throws on the very first
evaluated candidate (the 30 x 30 scaled template) and would report score 0.9
on every other candidate. -/
def envErr : Env :=
  { isReady := true
    cachedRef := some (1000, 1000)
    template := some (100, 100)
    rotDimsOf := fun _ d => Except.ok d
    resizeFails := fun _ _ => false
    corr := fun _ td =>
      if td = (30, 30) then Except.error () else Except.ok ⟨0.9, 0, 0⟩ }

/-- A detector state with a remembered previous match of confidence 0.5. -/
def sErr : DetectorState :=
  { rotationMode := RotationMode.coarse
    lastConfidence := 0.5
    lastMatchRegion := some ⟨0.5, 0.7, 0, 0, 0, 70, 70⟩
    stableMatchCount := 0
    roi := none }

/-- An environment scoring 0.9 on the 30 x 30 scaled template (scale 0.3 of
the 100 x 100 probe) and 0.5 on everything else. -/
def envC9 : Env :=
  { isReady := true
    cachedRef := some (1000, 1000)
    template := some (100, 100)
    rotDimsOf := fun _ d => Except.ok d
    resizeFails := fun _ _ => false
    corr := fun _ td =>
      if td = (30, 30) then Except.ok ⟨0.9, 0, 0⟩ else Except.ok ⟨0.5, 0, 0⟩ }

/-- The high-scoring candidate envC9 yields at rotation 0, scale 0.3. -/
def candHi : MatchCandidate := ⟨0.9, 0.3, 0, 0, 0, 30, 30⟩

/-- An environment with no cached reference image (the probe itself is
fine). -/
def envNoRef : Env :=
  { isReady := true
    cachedRef := none
    template := some (30, 30)
    rotDimsOf := fun _ d => Except.ok d
    resizeFails := fun _ _ => false
    corr := fun _ _ => Except.ok ⟨0.5, 0, 0⟩ }

/-- A mid-session detector state with lastConfidence 0.5. -/
def sHalf : DetectorState :=
  { rotationMode := RotationMode.coarse
    lastConfidence := 0.5
    lastMatchRegion := some ⟨0.5, 0.7, 0, 0, 0, 70, 70⟩
    stableMatchCount := 1
    roi := none }

/-! ## Claims -/

/-- Claim C1: for every detect call, if a MatchCandidate is returned
(non-absent), its confidence is at least the configured detection threshold
CONFIG.DETECTION_THRESHOLD = 0.40; detectPiece never returns a candidate
whose confidence is below that threshold. -/
theorem C1_detect_threshold (env : Env) (s : DetectorState) (m : MatchCandidate)
    (h : (detectPiece env s).1 = some m) :
    CONFIG.DETECTION_THRESHOLD ≤ m.confidence := by
  rcases detect_cases env s with ⟨heq, _⟩ |
    ⟨W, H, tD, _, _, _, ⟨e, _, heq⟩ | ⟨st, hsw, heq⟩⟩
  · rw [heq] at h
    exact absurd h (by simp)
  · rw [heq] at h
    exact absurd h (by simp)
  · rw [heq] at h
    dsimp only at h
    unfold sweepOf at hsw
    exact sweep_best_conf hsw (fun c hc => absurd hc (by simp)) m h

/-- Witness for C1: a concrete call returning a candidate, whose confidence
0.5 indeed clears the 0.40 threshold. -/
theorem C1_witness :
    (detectPiece envW initState).1 = some candW ∧
    CONFIG.DETECTION_THRESHOLD ≤ candW.confidence :=
  ⟨by decide, C1_detect_threshold envW initState candW (by decide)⟩

/-- Claim C8: if no reference image is cached (or OpenCV is not ready), or
template processing yields nothing, detectPiece returns null immediately and
no field of the detector state is mutated. -/
theorem C8_precondition_no_mutation (env : Env) (s : DetectorState)
    (h : env.isReady = false ∨ env.cachedRef = none ∨ env.template = none) :
    detectPiece env s = (none, s) := by
  rcases detect_cases env s with ⟨heq, _⟩ | ⟨W, H, tD, hr, hc, ht, _⟩
  · exact heq
  · rcases h with h | h | h
    · rw [h] at hr
      exact absurd hr (by simp)
    · rw [h] at hc
      exact Option.noConfusion hc
    · rw [h] at ht
      exact Option.noConfusion ht

/-- Witness for C8: a call with no cached reference returns null and leaves
a mid-session state exactly as it was. -/
theorem C8_witness :
    (envNoRef.isReady = false ∨ envNoRef.cachedRef = none ∨
      envNoRef.template = none) ∧
    detectPiece envNoRef sHalf = (none, sHalf) :=
  ⟨Or.inr (Or.inl rfl),
   C8_precondition_no_mutation envNoRef sHalf (Or.inr (Or.inl rfl))⟩

/-- Helper for C10: the fresh-state invariant holds in every reachable
state. -/
theorem freshInv_all (s : DetectorState) (hreach : DetectorReachable s) :
    s.lastMatchRegion = none →
      s.rotationMode = RotationMode.coarse ∧ s.stableMatchCount = 0 ∧
      s.lastConfidence = 0 := by
  induction hreach with
  | init => exact fun _ => ⟨rfl, rfl, rfl⟩
  | step env s hrec ih => exact detect_freshInv_step env s ih
  | didReset s hrec ih => exact fun _ => ⟨rfl, rfl, rfl⟩

/-- Claim C10 (implicit invariant): after any sequence of detectPiece and
reset calls, whenever lastMatchRegion is absent the remaining detector
fields are at their initial values: mode coarse, stableMatchCount 0 and
lastConfidence 0. -/
theorem C10_fresh_state (s : DetectorState) (hreach : DetectorReachable s)
    (h : s.lastMatchRegion = none) :
    s.rotationMode = RotationMode.coarse ∧ s.stableMatchCount = 0 ∧
    s.lastConfidence = 0 :=
  freshInv_all s hreach h

/-- Witness for C10: the invariant instantiated at the initial state. -/
theorem C10_witness :
    initState.rotationMode = RotationMode.coarse ∧
    initState.stableMatchCount = 0 ∧ initState.lastConfidence = 0 :=
  C10_fresh_state initState DetectorReachable.init rfl

/-- Counterexample for C3.  The claim says a sweep evaluates at most
CONFIG.MATCH.MAX_SEARCH_ITERATIONS = 10 (rotation, scale) pairs.  Here is
the exact sweep of the call detectPiece envIter initState (coarse mode,
4 rotations x 4 scales, nothing skipped, nothing recorded); its final
iterationCount — which the code increments exactly once per evaluated
pair — is 11.  The guard iterationCount > MAX_SEARCH_ITERATIONS is checked
before the increment, so an eleventh pair is still evaluated. -/
theorem C3_counterexample :
    sweepOf envIter initState 1000 1000 (100, 100) =
      Except.ok ⟨none, false, CONFIG.MATCH.MAX_SEARCH_ITERATIONS + 1⟩ ∧
    CONFIG.MATCH.MAX_SEARCH_ITERATIONS = 10 :=
  ⟨by decide, by decide⟩

/-- Claim C3 (amended): a detectPiece sweep evaluates at most
MAX_SEARCH_ITERATIONS + 1 = 11 (rotation, scale) pairs — the cap guard uses
a strict comparison checked before the counter is incremented, so the sweep
hard-stops only once the counter exceeds the configured maximum, regardless
of confidence. -/
theorem C3_iteration_cap (env : Env) (s : DetectorState) (W H : ℤ)
    (tD : ℤ × ℤ) (st : SweepState)
    (h : sweepOf env s W H tD = Except.ok st) :
    st.iter ≤ CONFIG.MATCH.MAX_SEARCH_ITERATIONS + 1 := by
  unfold sweepOf at h
  exact sweepRotations_iter (getRotationAngles s) _ _ h (by decide)

/-- Witness for C3: the amended bound applied to the concrete capped
sweep. -/
theorem C3_witness :
    sweepOf envIter initState 1000 1000 (100, 100) =
      Except.ok ⟨none, false, 11⟩ ∧
    (⟨none, false, 11⟩ : SweepState).iter ≤
      CONFIG.MATCH.MAX_SEARCH_ITERATIONS + 1 :=
  ⟨by decide,
   C3_iteration_cap envIter initState 1000 1000 (100, 100) ⟨none, false, 11⟩
     (by decide)⟩

/-- Claim C7: early termination.  First, a sweep state whose
earlyTermination flag is set passes through both loops unchanged: no further
(rotation, scale) pair is evaluated (the state — including its iteration
counter and best match — is returned as is).  Second, whenever an inner
iteration records a candidate whose score exceeds
CONFIG.EARLY_TERMINATION_THRESHOLD = 0.85, it sets the earlyTermination
flag. -/
theorem C7_early_termination :
    (∀ (env : Env) (tD rd : ℤ × ℤ) (ro : Option Rect) (scs : List ℚ)
        (rots : List ℤ) (st : SweepState), st.earlyTerm = true →
        sweepRotations env tD rd ro scs rots st = Except.ok st) ∧
    (∀ (env : Env) (rd : ℤ × ℤ) (ro : Option Rect) (rot : ℤ) (rdim : ℤ × ℤ)
        (scs : List ℚ) (st : SweepState), st.earlyTerm = true →
        sweepScales env rd ro rot rdim scs st = Except.ok st) ∧
    (∀ (env : Env) (rd : ℤ × ℤ) (ro : Option Rect) (rot : ℤ) (rdim : ℤ × ℤ)
        (sc : ℚ) (st st' : SweepState) (c : MatchCandidate),
        evalScale env rd ro rot rdim sc st = Except.ok st' →
        st'.best = some c → st'.best ≠ st.best →
        CONFIG.EARLY_TERMINATION_THRESHOLD < c.confidence →
        st'.earlyTerm = true) := by
  refine ⟨?_, ?_, ?_⟩
  · intro env tD rd ro scs rots st h
    cases rots with
    | nil => rfl
    | cons rot rest => rw [sweepRotations, if_pos (Or.inl h)]
  · intro env rd ro rot rdim scs st h
    cases scs with
    | nil => rfl
    | cons sc rest => rw [sweepScales, if_pos (Or.inl h)]
  · intro env rd ro rot rdim sc st st' c hev hsome hne hconf
    rcases evalScale_ok_cases hev with ⟨hb, _, _⟩ |
      ⟨mm, _, _, _, _, _, _, _, he, hb⟩
    · exact absurd hb hne
    · rw [hb] at hsome
      injection hsome with hcc
      subst hcc
      rw [he, if_pos hconf]

/-- Witness for C7: both stop conditions instantiated on a state with the
flag set, and the flag-setting fact instantiated on the concrete 0.9-scoring
iteration of envC9. -/
theorem C7_witness :
    sweepRotations envW (30, 30) (100, 100) none [0.7] [0, 90]
      ⟨none, true, 5⟩ = Except.ok ⟨none, true, 5⟩ ∧
    sweepScales envW (100, 100) none 0 (30, 30) [0.7] ⟨none, true, 5⟩ =
      Except.ok ⟨none, true, 5⟩ ∧
    (⟨some candHi, true, 1⟩ : SweepState).earlyTerm = true :=
  ⟨C7_early_termination.1 envW (30, 30) (100, 100) none [0.7] [0, 90]
     ⟨none, true, 5⟩ rfl,
   C7_early_termination.2.1 envW (100, 100) none 0 (30, 30) [0.7]
     ⟨none, true, 5⟩ rfl,
   C7_early_termination.2.2 envC9 (1000, 1000) none 0 (100, 100) 0.3
     ⟨none, false, 0⟩ ⟨some candHi, true, 1⟩ candHi (by decide) (by decide)
     (by decide) (by decide)⟩

/-- Counterexample for C5.  The claim quantifies over every detectPiece call
that produces no MatchCandidate.  A call that fails its precondition check
(here: no cached reference) produces no candidate, yet decays nothing:
lastConfidence stays 0.5 instead of the claimed max(0, 0.5 - 0.1) = 0.4. -/
theorem C5_counterexample :
    detectPiece envNoRef sHalf = (none, sHalf) ∧
    (detectPiece envNoRef sHalf).2.lastConfidence ≠
      max 0 (sHalf.lastConfidence - 0.1) :=
  ⟨by decide, by decide⟩

/-- Claim C5 (amended): for every detectPiece call that passes its
precondition checks and whose sweep completes without a collaborator error
but records no candidate, afterwards lastConfidence = max(0,
previous - 0.1), stableMatchCount = max(0, previous - 1), and
lastMatchRegion is unchanged (never cleared on a miss). -/
theorem C5_miss_decay (env : Env) (s : DetectorState) (W H : ℤ)
    (tD : ℤ × ℤ) (st : SweepState)
    (hr : env.isReady = true) (hc : env.cachedRef = some (W, H))
    (ht : env.template = some tD)
    (hsw : sweepOf env s W H tD = Except.ok st) (hb : st.best = none) :
    (detectPiece env s).1 = none ∧
    (detectPiece env s).2.lastConfidence = max 0 (s.lastConfidence - 0.1) ∧
    (detectPiece env s).2.stableMatchCount = max 0 (s.stableMatchCount - 1) ∧
    (detectPiece env s).2.lastMatchRegion = s.lastMatchRegion := by
  have hd : detectPiece env s =
      (st.best, updateMatchStability st.best
        { s with roi := (computeSearchROI W H s).2 }) := by
    simp only [detectPiece, hr, hc, ht, Bool.true_eq_false, if_false]
    rw [hsw]
  rw [hd, hb, updateMS_none]
  exact ⟨rfl, (missUpdate_fields _).1, (missUpdate_fields _).2.1,
         (missUpdate_fields _).2.2.1⟩

/-- Witness for C5: the capped no-match sweep of envIter from the fresh
state decays confidence to max(0, 0 - 0.1) = 0. -/
theorem C5_witness :
    envIter.isReady = true ∧ envIter.cachedRef = some (1000, 1000) ∧
    envIter.template = some (100, 100) ∧
    sweepOf envIter initState 1000 1000 (100, 100) =
      Except.ok ⟨none, false, 11⟩ ∧
    ((detectPiece envIter initState).1 = none ∧
     (detectPiece envIter initState).2.lastConfidence =
       max 0 (initState.lastConfidence - 0.1) ∧
     (detectPiece envIter initState).2.stableMatchCount =
       max 0 (initState.stableMatchCount - 1) ∧
     (detectPiece envIter initState).2.lastMatchRegion =
       initState.lastMatchRegion) :=
  ⟨rfl, rfl, rfl, by decide,
   C5_miss_decay envIter initState 1000 1000 (100, 100) ⟨none, false, 11⟩
     rfl rfl rfl (by decide) rfl⟩

/-- Counterexample for C4.  The claim says that when a correlation call
raises an error, only that sweep iteration is abandoned and the sweep
continues, decaying stability if everything fails.  In envErr the very first
evaluated candidate (the 30 x 30 template at rotation 0, scale 0.3) makes
the correlation primitive throw, while every later candidate would score
0.9; detectPiece nevertheless returns null with the state exactly as before
the call: the sweep did not continue (third conjunct: the immediately
following (rotation 0, scale 0.5) iteration would have recorded a
0.9-confidence candidate), and lastConfidence was not decayed from 0.5 to
max(0, 0.5 - 0.1) = 0.4 (second conjunct). -/
theorem C4_counterexample :
    detectPiece envErr sErr = (none, sErr) ∧
    (detectPiece envErr sErr).2.lastConfidence ≠
      max 0 (sErr.lastConfidence - 0.1) ∧
    evalScale envErr (1000, 1000) none 0 (100, 100) 0.5 ⟨none, false, 1⟩ =
      Except.ok ⟨some ⟨0.9, 0.5, 0, 0, 0, 50, 50⟩, true, 2⟩ :=
  ⟨by decide, by decide, by decide⟩

/-- Claim C4 (amended): if a transform or correlation call raises an error
anywhere in the sweep, the whole detectPiece call is aborted by the
surrounding try/catch: it returns null immediately, no error propagates to
the caller, and no stability update takes place — lastConfidence,
stableMatchCount, rotationMode and lastMatchRegion are all unchanged (only
the already-assigned roi field has been rewritten). -/
theorem C4_error_aborts (env : Env) (s : DetectorState) (W H : ℤ)
    (tD : ℤ × ℤ) (e : Unit)
    (hr : env.isReady = true) (hc : env.cachedRef = some (W, H))
    (ht : env.template = some tD)
    (hsw : sweepOf env s W H tD = Except.error e) :
    detectPiece env s = (none, { s with roi := (computeSearchROI W H s).2 }) ∧
    (detectPiece env s).2.lastConfidence = s.lastConfidence ∧
    (detectPiece env s).2.stableMatchCount = s.stableMatchCount ∧
    (detectPiece env s).2.rotationMode = s.rotationMode ∧
    (detectPiece env s).2.lastMatchRegion = s.lastMatchRegion := by
  have hd : detectPiece env s =
      (none, { s with roi := (computeSearchROI W H s).2 }) := by
    simp only [detectPiece, hr, hc, ht, Bool.true_eq_false, if_false]
    rw [hsw]
  exact ⟨hd, by rw [hd], by rw [hd], by rw [hd], by rw [hd]⟩

/-- Witness for C4: the erroring sweep of envErr aborts the call with the
stability fields untouched. -/
theorem C4_witness :
    envErr.isReady = true ∧ envErr.cachedRef = some (1000, 1000) ∧
    envErr.template = some (100, 100) ∧
    sweepOf envErr sErr 1000 1000 (100, 100) = Except.error () ∧
    (detectPiece envErr sErr =
       (none, { sErr with roi := (computeSearchROI 1000 1000 sErr).2 }) ∧
     (detectPiece envErr sErr).2.lastConfidence = sErr.lastConfidence ∧
     (detectPiece envErr sErr).2.stableMatchCount = sErr.stableMatchCount ∧
     (detectPiece envErr sErr).2.rotationMode = sErr.rotationMode ∧
     (detectPiece envErr sErr).2.lastMatchRegion = sErr.lastMatchRegion) :=
  ⟨rfl, rfl, rfl, by decide,
   C4_error_aborts envErr sErr 1000 1000 (100, 100) () rfl rfl rfl (by decide)⟩

/-- Claim C2: over every sequence of detectPiece calls of one session
(fixed W x H reference, correlation primitive honouring its location
contract), starting from the fresh state, every computed search region
satisfies 0 <= x, 0 <= y, nonnegative width and height, x + width <= W and
y + height <= H, and every returned MatchCandidate satisfies 0 <= x,
0 <= y, x + width <= W and y + height <= H (coordinates are
reference-image-absolute). -/
theorem C2_bounds (W H : ℤ) (env : Env) (s : DetectorState)
    (hW : 0 ≤ W) (hH : 0 ≤ H) (hreach : ReachableIn W H s)
    (henv : EnvOk W H env) :
    rectInBounds W H (computeSearchROI W H s).1 ∧
    ∀ m, (detectPiece env s).1 = some m → candInBounds W H m := by
  have hInv := reachable_inv hreach
  exact ⟨searchROI_inBounds W H s hW hH hInv,
         fun m hm => ((detect_good env s henv hInv).2 m hm).1⟩

/-- Witness for C2: the fresh state of a 100 x 100 session under envW. -/
theorem C2_witness :
    (0 : ℤ) ≤ 100 ∧
    (rectInBounds 100 100 (computeSearchROI 100 100 initState).1 ∧
     ∀ m, (detectPiece envW initState).1 = some m → candInBounds 100 100 m) :=
  ⟨by decide,
   C2_bounds 100 100 envW initState (by decide) (by decide) ReachableIn.init
     ⟨Or.inr rfl,
      fun rd td mm h1 h2 hmm => by
        simp only [envW] at hmm
        cases hmm
        dsimp only
        exact ⟨le_refl 0, by omega, le_refl 0, by omega⟩⟩⟩

/-- Characterization of updateRotationMode: the mode is unchanged, or it
escalates exactly one step under the corresponding strict confidence
threshold. -/
theorem updateRM_cases (u : DetectorState) :
    ((updateRotationMode u).rotationMode = u.rotationMode) ∨
    (u.rotationMode = RotationMode.coarse ∧
     (updateRotationMode u).rotationMode = RotationMode.medium ∧
     0.8 < u.lastConfidence) ∨
    (u.rotationMode = RotationMode.medium ∧
     (updateRotationMode u).rotationMode = RotationMode.fine ∧
     0.85 < u.lastConfidence) := by
  unfold updateRotationMode
  split
  · rename_i h
    exact Or.inr (Or.inl ⟨h.2, rfl, h.1⟩)
  · split
    · rename_i h
      exact Or.inr (Or.inr ⟨h.2, rfl, h.1⟩)
    · exact Or.inl rfl

/-- The hit branch of updateMatchStability changes the mode only by the
one-step escalations of updateRotationMode, gated by the new confidence. -/
theorem updateMS_hit_mode {bm : MatchCandidate} (s : DetectorState)
    (hth : CONFIG.DETECTION_THRESHOLD ≤ bm.confidence) :
    ((updateMatchStability (some bm) s).rotationMode = s.rotationMode) ∨
    (s.rotationMode = RotationMode.coarse ∧
     (updateMatchStability (some bm) s).rotationMode = RotationMode.medium ∧
     0.8 < bm.confidence) ∨
    (s.rotationMode = RotationMode.medium ∧
     (updateMatchStability (some bm) s).rotationMode = RotationMode.fine ∧
     0.85 < bm.confidence) := by
  cases hl : s.lastMatchRegion with
  | none =>
    simp only [updateMatchStability, hl, if_pos hth]
    rcases updateRM_cases
      { s with lastMatchRegion := some bm, lastConfidence := bm.confidence }
      with h | ⟨h1, h2, h3⟩ | ⟨h1, h2, h3⟩
    · exact Or.inl h
    · exact Or.inr (Or.inl ⟨h1, h2, h3⟩)
    · exact Or.inr (Or.inr ⟨h1, h2, h3⟩)
  | some lm =>
    simp only [updateMatchStability, hl, if_pos hth]
    split
    · rcases updateRM_cases
        { s with
          stableMatchCount := min CONFIG.MAX_STABLE_COUNT (s.stableMatchCount + 1),
          lastMatchRegion := some bm, lastConfidence := bm.confidence }
        with h | ⟨h1, h2, h3⟩ | ⟨h1, h2, h3⟩
      · exact Or.inl h
      · exact Or.inr (Or.inl ⟨h1, h2, h3⟩)
      · exact Or.inr (Or.inr ⟨h1, h2, h3⟩)
    · rcases updateRM_cases
        { s with
          stableMatchCount := max 0 (s.stableMatchCount - 1),
          lastMatchRegion := some bm, lastConfidence := bm.confidence }
        with h | ⟨h1, h2, h3⟩ | ⟨h1, h2, h3⟩
      · exact Or.inl h
      · exact Or.inr (Or.inl ⟨h1, h2, h3⟩)
      · exact Or.inr (Or.inr ⟨h1, h2, h3⟩)

/-- Claim C6: over every sequence of detectPiece calls, the mode moves only
coarse to medium (on a returned candidate with new lastConfidence above
0.80) or medium to fine (above 0.85), one step per call and never two; the
only downward transition is a direct reset to coarse, which happens on a
candidate-less call that leaves stableMatchCount at 0; and on a miss update
the reset to coarse happens exactly when the mode already was coarse or the
decremented stability counter reaches 0. -/
theorem C6_mode_transitions (env : Env) (s : DetectorState) :
    (((detectPiece env s).2.rotationMode = s.rotationMode) ∨
     (s.rotationMode = RotationMode.coarse ∧
      (detectPiece env s).2.rotationMode = RotationMode.medium ∧
      (detectPiece env s).1 ≠ none ∧
      0.8 < (detectPiece env s).2.lastConfidence) ∨
     (s.rotationMode = RotationMode.medium ∧
      (detectPiece env s).2.rotationMode = RotationMode.fine ∧
      (detectPiece env s).1 ≠ none ∧
      0.85 < (detectPiece env s).2.lastConfidence) ∨
     (s.rotationMode ≠ RotationMode.coarse ∧
      (detectPiece env s).2.rotationMode = RotationMode.coarse ∧
      (detectPiece env s).1 = none ∧
      (detectPiece env s).2.stableMatchCount = 0)) ∧
    (∀ t : DetectorState,
      (updateMatchStability none t).rotationMode = RotationMode.coarse ↔
        (t.rotationMode = RotationMode.coarse ∨
         max 0 (t.stableMatchCount - 1) = 0)) := by
  constructor
  · rcases detect_cases env s with ⟨heq, _⟩ |
      ⟨W, H, tD, _, _, _, ⟨e, _, heq⟩ | ⟨st, hsw, heq⟩⟩
    · rw [heq]
      exact Or.inl rfl
    · rw [heq]
      exact Or.inl rfl
    · rw [heq]
      cases hb : st.best with
      | none =>
        dsimp only
        rw [updateMS_none]
        by_cases hmode : (missUpdate { s with
            roi := (computeSearchROI W H s).2 }).rotationMode =
            RotationMode.coarse
        · by_cases hsm : s.rotationMode = RotationMode.coarse
          · exact Or.inl (hmode.trans hsm.symm)
          · refine Or.inr (Or.inr (Or.inr ⟨hsm, hmode, rfl, ?_⟩))
            rcases (missUpdate_mode _).mp hmode with h | h
            · exact absurd h hsm
            · rw [(missUpdate_fields _).2.1]
              exact h
        · rcases missUpdate_mode_cases
            { s with roi := (computeSearchROI W H s).2 } with h | h
          · exact Or.inl h
          · exact absurd h hmode
      | some bm =>
        dsimp only
        by_cases hth : CONFIG.DETECTION_THRESHOLD ≤ bm.confidence
        · rcases updateMS_hit_mode
            { s with roi := (computeSearchROI W H s).2 } hth
            with h | ⟨h1, h2, h3⟩ | ⟨h1, h2, h3⟩
          · exact Or.inl h
          · refine Or.inr (Or.inl ⟨h1, h2, by simp, ?_⟩)
            rw [(updateMS_some_fields hth).2]
            exact h3
          · refine Or.inr (Or.inr (Or.inl ⟨h1, h2, by simp, ?_⟩))
            rw [(updateMS_some_fields hth).2]
            exact h3
        · unfold sweepOf at hsw
          exact absurd
            (sweep_best_conf hsw (fun c hc => absurd hc (by simp)) bm hb) hth
  · intro t
    rw [updateMS_none]
    exact missUpdate_mode t

/-- Counterexample for C9.  With deterministic collaborators (envC9), the
first detectPiece call from the fresh state returns a 0.9-confidence match
at rotation 0, scale 0.3; that hit narrows the search region (0.9 exceeds
the display threshold) and escalates the mode to medium (0.9 exceeds 0.80),
so the second call with the same probe sweeps different (rotation, scale)
candidates and returns a different MatchCandidate (confidence 0.5 at scale
0.4). -/
theorem C9_counterexample :
    (detectPiece envC9 initState).1 = some candHi ∧
    (detectPiece envC9 (detectPiece envC9 initState).2).1 =
      some ⟨0.5, 0.4, 0, 0, 0, 40, 40⟩ ∧
    candHi ≠ (⟨0.5, 0.4, 0, 0, 0, 40, 40⟩ : MatchCandidate) :=
  ⟨by decide, by decide, by decide⟩

/-- Claim C9 (amended): two successive detectPiece calls on the same probe
with deterministic collaborators return the same MatchCandidate provided the
first call's confidence does not exceed the display threshold
CONFIG.MATCH_CONFIDENCE_THRESHOLD = 0.60 (so the first call's state update
changes neither the search region nor the candidate rotation/scale lists);
in general the first hit may narrow the region and escalate the mode, and
the second call may return a different candidate. -/
theorem C9_repeat_low_confidence (env : Env) (c1 : MatchCandidate)
    (s1 : DetectorState)
    (h : detectPiece env initState = (some c1, s1))
    (hconf : c1.confidence ≤ CONFIG.MATCH_CONFIDENCE_THRESHOLD) :
    (detectPiece env s1).1 = some c1 := by
  rcases detect_cases env initState with ⟨heq, _⟩ |
    ⟨W, H, tD, hr, hc, ht, ⟨e, hsw, heq⟩ | ⟨st, hsw, heq⟩⟩
  · rw [heq] at h
    injection h with h1 h2
    exact Option.noConfusion h1
  · rw [heq] at h
    injection h with h1 h2
    exact Option.noConfusion h1
  · rw [heq] at h
    injection h with h1 h2
    have hθ : CONFIG.DETECTION_THRESHOLD ≤ c1.confidence := by
      have hsw' := hsw
      unfold sweepOf at hsw'
      exact sweep_best_conf hsw' (fun c hc => absurd hc (by simp)) c1 h1
    have hlt8 : ¬ (0.8 : ℚ) < c1.confidence := by
      refine not_lt.mpr (le_trans hconf ?_)
      norm_num [CONFIG.MATCH_CONFIDENCE_THRESHOLD]
    have hltMCT : ¬ CONFIG.MATCH_CONFIDENCE_THRESHOLD < c1.confidence :=
      not_lt.mpr hconf
    have hltHCT : ¬ CONFIG.HIGH_CONFIDENCE_THRESHOLD < c1.confidence := by
      refine not_lt.mpr (le_trans hconf ?_)
      norm_num [CONFIG.MATCH_CONFIDENCE_THRESHOLD, CONFIG.HIGH_CONFIDENCE_THRESHOLD]
    have hcoarse :
        s1 = ⟨RotationMode.coarse, c1.confidence, some c1, 0, none⟩ := by
      rw [← h2, h1]
      show updateMatchStability (some c1) initState = _
      simp only [updateMatchStability, if_pos hθ]
      unfold updateRotationMode
      rw [if_neg (fun hh => hlt8 hh.1)]
      rw [if_neg (fun hh => RotationMode.noConfusion hh.2)]
      rfl
    have hroi : computeSearchROI W H s1 = (⟨0, 0, W, H⟩, none) := by
      rw [hcoarse]
      simp only [computeSearchROI]
      rw [if_neg (fun hh => hltMCT hh.2)]
    have hang : getRotationAngles s1 = getRotationAngles initState := by
      rw [hcoarse]
      simp only [getRotationAngles]
      rw [if_neg (fun hh => hltHCT hh.1)]
      rfl
    have hsca : getOptimalScales s1 = getOptimalScales initState := by
      rw [hcoarse]
      simp only [getOptimalScales]
      rw [if_neg (fun hh => hltHCT hh.1)]
      rfl
    have hsw2 : sweepOf env s1 W H tD = Except.ok st := by
      unfold sweepOf
      rw [hroi, hang, hsca]
      unfold sweepOf at hsw
      exact hsw
    have hd2 : detectPiece env s1 =
        (st.best, updateMatchStability st.best
          { s1 with roi := (computeSearchROI W H s1).2 }) := by
      simp only [detectPiece, hr, hc, ht, Bool.true_eq_false, if_false]
      rw [hsw2]
    rw [hd2, h1]

/-- Witness for C9: the 0.5-confidence call of envW repeated from the state
it produced returns the same candidate. -/
theorem C9_witness :
    detectPiece envW initState =
      (some candW, ⟨RotationMode.coarse, 0.5, some candW, 0, none⟩) ∧
    candW.confidence ≤ CONFIG.MATCH_CONFIDENCE_THRESHOLD ∧
    (detectPiece envW ⟨RotationMode.coarse, 0.5, some candW, 0, none⟩).1 =
      some candW :=
  ⟨by decide, by decide,
   C9_repeat_low_confidence envW candW
     ⟨RotationMode.coarse, 0.5, some candW, 0, none⟩
     (by decide) (by decide)⟩

end Jigsaw
